import Mathlib

/-!
Verification of the ripple state-machine reducer
(`src/packages/states/src/ripples/reducer.ts` of jcargilo/react-md).

The reducer's transition functions (`createRipple`, `enteredRipple`,
`releaseRipple`, `removeRipple`, `cancelRipples`, `reducer`) are embedded
shallowly: machine time (`Date.now()`) is passed explicitly as an `Int`
parameter `now`, JavaScript arrays become `List`, and JavaScript reference
equality on ripple records is modelled by structural (decidable) equality
on the record type.  The input-classifier helpers live in `utils.ts`, which
is not part of the sources at hand; they are modelled from the spec and
marked as such.
-/

namespace Ripples

/-- Interaction modality of an event / ripple: the string union
`"touch" | "mouse" | "keyboard"` of the source. -/
inductive Modality where
  | touch
  | mouse
  | keyboard
deriving DecidableEq, Repr

/-- A single touch point of a touch event (only the page coordinates are
ever read by the core). -/
structure TouchPoint where
  pageX : Int
  pageY : Int
deriving DecidableEq, Repr

/-- Modelled from the spec: the simplified interaction event the core
copies out of the raw DOM/React event (`type`, `key`, `target`, `button`,
`currentTarget`, `touches`, `pageX`, `pageY`).  `target` and
`currentTarget` are element identities, modelled as numbers; `button` is
`none` for non-pointer events and `key` is `none` for non-keyboard
events. -/
structure RippleEvent where
  target : Nat
  currentTarget : Nat
  touches : List TouchPoint
  pageX : Int
  pageY : Int
  button : Option Nat
  key : Option String
deriving DecidableEq, Repr

/-- One ripple record of the set (`RippleState` of `types.d`): the
lifecycle flags plus the data copied at creation that the core reads back
(`type` is consulted by the CREATE guard; the coordinates are opaque
renderer payload). -/
structure RippleState where
  startTime : Int
  holding : Bool
  entered : Bool
  exiting : Bool
  mounted : Bool
  type : Modality
  x : Int
  y : Int
deriving DecidableEq, Repr

/-- The ripple set: an ordered sequence of ripples (`RipplesState`). -/
abbrev RipplesState := List RippleState

/-- Modelled from the spec (`utils.ts` is not among the sources):
classifies modality from the event shape — presence of touch points means
touch, a key field means keyboard, otherwise mouse. -/
def getType (e : RippleEvent) : Modality :=
  if !e.touches.isEmpty then .touch
  else if e.key.isSome then .keyboard
  else .mouse

/-- Modelled from the spec (`utils.ts` is not among the sources): false
for secondary/auxiliary pointer buttons (only the primary button, `0`,
triggers), for keyboard events whose key is not Enter or Space, and for
Space when `disableSpacebarClick` is set; true otherwise. -/
def isRippleable (e : RippleEvent) (disableSpacebarClick : Bool) : Bool :=
  match e.key with
  | some k => k == "Enter" || (k == " " && !disableSpacebarClick)
  | none =>
    match e.button with
    | some b => b == 0
    | none => true

/-- Modelled from the spec (`utils.ts` is not among the sources): true
when the event's target differs from the element owning the ripple
surface, i.e. the event bubbled from a descendant. -/
def isBubbled (e : RippleEvent) : Bool :=
  e.target != e.currentTarget

/-- Modelled from the spec (`utils.ts` is not among the sources): builds
the initial ripple record — `startTime = now`, `holding = true`,
`entered = false`, `exiting = false`, `mounted = true`, the classified
modality, and positional data with touch coordinates taking priority over
pointer coordinates. -/
def createRippleState (e : RippleEvent) (now : Int) : RippleState :=
  { startTime := now
    holding := true
    entered := false
    exiting := false
    mounted := true
    type := getType e
    x := (e.touches.head?.map TouchPoint.pageX).getD e.pageX
    y := (e.touches.head?.map TouchPoint.pageY).getD e.pageY }

/-- `createRipple` (reducer.ts lines 84–101): reject events the classifier
refuses or that bubbled; reject non-touch events while a touch ripple is
in the set (mouse events synthesized after a touch must not double-ripple);
otherwise append a fresh ripple at the end. -/
def createRipple (state : RipplesState) (event : RippleEvent)
    (disableSpacebarClick : Bool) (now : Int) : RipplesState :=
  if !isRippleable event disableSpacebarClick || isBubbled event then
    state
  else if getType event != .touch
      && (state.find? (fun r => r.type == .touch)).isSome then
    state
  else
    state ++ [createRippleState event now]

/-- `enteredRipple` (reducer.ts lines 103–117): find the ripple by
(reference, here structural) equality; no-op when absent or already
exiting; otherwise replace it in place with `entered := true` and
`exiting := !holding || now − startTime > 300`. -/
def enteredRipple (state : RipplesState) (ripple : RippleState)
    (now : Int) : RipplesState :=
  let i := state.findIdx (fun r => r == ripple)
  if i < state.length ∧ ripple.exiting = false then
    state.set i
      { ripple with
        exiting := !ripple.holding || decide (now - ripple.startTime > 300)
        entered := true }
  else
    state

/-- `releaseRipple` (reducer.ts lines 119–134): find the first ripple with
`holding && !exiting`; no-op when there is none; otherwise replace it in
place with `holding := false` and
`exiting := entered || now − startTime > 300`. -/
def releaseRipple (state : RipplesState) (now : Int) : RipplesState :=
  let i := state.findIdx (fun r => r.holding && !r.exiting)
  if h : i < state.length then
    let ripple := state.get ⟨i, h⟩
    state.set i
      { ripple with
        exiting := ripple.entered || decide (now - ripple.startTime > 300)
        holding := false }
  else
    state

/-- `removeRipple` (reducer.ts lines 136–145): find the first ripple whose
`startTime` equals the argument's; no-op when there is none; otherwise
splice it out of the sequence. -/
def removeRipple (state : RipplesState) (ripple : RippleState) :
    RipplesState :=
  let i := state.findIdx (fun r => r.startTime == ripple.startTime)
  if i < state.length then
    state.eraseIdx i
  else
    state

/-- `cancelRipples` (reducer.ts lines 147–158): with `ease` mark every
ripple `exiting := true, mounted := true, holding := false`; without it
clear the whole set. -/
def cancelRipples (state : RipplesState) (ease : Bool) : RipplesState :=
  if ease then
    state.map (fun r =>
      { r with exiting := true, mounted := true, holding := false })
  else
    []

/-- The action union of the reducer.  `unknown` stands for any action
object whose `type` tag is none of the five recognized strings, reaching
the `default` branch of the `switch` at runtime. -/
inductive RippleAction where
  | create (event : RippleEvent) (disableSpacebarClick : Bool)
  | release
  | cancel (ease : Bool)
  | entered (ripple : RippleState)
  | remove (ripple : RippleState)
  | unknown (tag : String)
deriving DecidableEq, Repr

/-- `reducer` (reducer.ts lines 160–178): dispatch on the action tag; any
unrecognized tag falls through to the `default` branch and returns the
state unchanged. -/
def reducer (state : RipplesState) (action : RippleAction)
    (now : Int) : RipplesState :=
  match action with
  | .create event disableSpacebarClick =>
      createRipple state event disableSpacebarClick now
  | .release => releaseRipple state now
  | .cancel ease => cancelRipples state ease
  | .entered ripple => enteredRipple state ripple now
  | .remove ripple => removeRipple state ripple
  | .unknown _ => state

/-- A concrete primary-button mouse event hitting its own surface. -/
def sampleMouseEvent : RippleEvent :=
  { target := 0, currentTarget := 0, touches := [], pageX := 5, pageY := 6,
    button := some 0, key := none }

/-- A concrete single-finger touch event hitting its own surface. -/
def sampleTouchEvent : RippleEvent :=
  { target := 0, currentTarget := 0, touches := [{ pageX := 1, pageY := 2 }],
    pageX := 5, pageY := 6, button := none, key := none }

/-- A concrete freshly created mouse ripple (startTime 0). -/
def sampleRipple : RippleState :=
  { startTime := 0, holding := true, entered := false, exiting := false,
    mounted := true, type := .mouse, x := 5, y := 6 }

/-- C10: the reducer returns the state unchanged on any action whose tag
is none of CREATE, RELEASE, CANCEL, ENTERED, REMOVE. -/
theorem reducer_default_preserves_state (state : RipplesState)
    (tag : String) (now : Int) :
    reducer state (.unknown tag) now = state := rfl

/-- C4: CANCEL with `ease = true` keeps the length, turning each ripple
into a copy with `exiting = true`, `holding = false`, `mounted = true`;
CANCEL with `ease = false` always yields the empty set. -/
theorem cancelRipples_spec (state : RipplesState) :
    (cancelRipples state true).length = state.length ∧
    (∀ i : Nat,
      (cancelRipples state true)[i]? = (state[i]?).map (fun r =>
        { r with exiting := true, holding := false, mounted := true })) ∧
    cancelRipples state false = [] := by
  refine ⟨by simp [cancelRipples], fun i => ?_, rfl⟩
  simp [cancelRipples]

/-- C8: ENTERED on a still-held, not-yet-exiting ripple 350 ms after its
creation marks it exiting: the 300 ms elapsed clause fires even though
holding was never released. -/
theorem enteredRipple_forces_exit_after_300
    (r : RippleState) (hh : r.holding = true) (hx : r.exiting = false) :
    enteredRipple [r] r (r.startTime + 350) =
      [{ r with entered := true, exiting := true }] := by
  simp only [enteredRipple, List.findIdx_cons, beq_self_eq_true, cond_true,
    List.length_cons, List.length_nil]
  rw [if_pos ⟨Nat.zero_lt_one, hx⟩]
  simp only [List.set_cons_zero]
  have harith : r.startTime + 350 - r.startTime = 350 := by ring
  simp [hh, harith]

/-- Witness for `enteredRipple_forces_exit_after_300` at `sampleRipple`. -/
theorem enteredRipple_forces_exit_after_300_witness :
    enteredRipple [sampleRipple] sampleRipple (sampleRipple.startTime + 350) =
      [{ sampleRipple with entered := true, exiting := true }] :=
  enteredRipple_forces_exit_after_300 sampleRipple rfl rfl

/-- C7: RELEASE 50 ms after creation of a lone not-yet-entered ripple
yields `holding = false, exiting = false`; a subsequent ENTERED on the
updated ripple at 60 ms then yields `exiting = true` since `!holding`
holds. -/
theorem release_then_entered_scenario
    (r : RippleState) (hh : r.holding = true) (hn : r.entered = false)
    (hx : r.exiting = false) :
    releaseRipple [r] (r.startTime + 50) =
      [{ r with holding := false, exiting := false }] ∧
    enteredRipple [{ r with holding := false, exiting := false }]
        { r with holding := false, exiting := false } (r.startTime + 60) =
      [{ r with holding := false, entered := true, exiting := true }] := by
  constructor
  · simp only [releaseRipple, List.findIdx_cons, hh, hx, Bool.not_false,
      Bool.and_self, cond_true, List.length_cons, List.length_nil]
    rw [dif_pos Nat.zero_lt_one]
    have harith : r.startTime + 50 - r.startTime = 50 := by ring
    simp [hn, harith]
  · simp only [enteredRipple, List.findIdx_cons, beq_self_eq_true, cond_true,
      List.length_cons, List.length_nil]
    rw [if_pos ⟨Nat.zero_lt_one, by simp⟩]
    have harith : r.startTime + 60 - r.startTime = 60 := by ring
    simp [harith]

/-- Witness for `release_then_entered_scenario` at `sampleRipple`. -/
theorem release_then_entered_scenario_witness :
    releaseRipple [sampleRipple] (sampleRipple.startTime + 50) =
      [{ sampleRipple with holding := false, exiting := false }] ∧
    enteredRipple [{ sampleRipple with holding := false, exiting := false }]
        { sampleRipple with holding := false, exiting := false }
        (sampleRipple.startTime + 60) =
      [{ sampleRipple with
          holding := false, entered := true, exiting := true }] :=
  release_then_entered_scenario sampleRipple rfl rfl rfl

/-- C9: every transition is pure on its input: ENTERED and RELEASE either
return the input sequence itself (no-op) or a copy replacing a single
index, every other position holding the identical entry; REMOVE either
returns the input or erases exactly one index; CANCEL returns the empty
sequence or a same-length copy. -/
theorem transitions_frame (state : RipplesState) (ripple : RippleState)
    (now : Int) :
    (enteredRipple state ripple now = state ∨
      ∃ i x, i < state.length ∧ enteredRipple state ripple now = state.set i x ∧
        ∀ j, j ≠ i → (enteredRipple state ripple now)[j]? = state[j]?) ∧
    (releaseRipple state now = state ∨
      ∃ i x, i < state.length ∧ releaseRipple state now = state.set i x ∧
        ∀ j, j ≠ i → (releaseRipple state now)[j]? = state[j]?) ∧
    (removeRipple state ripple = state ∨
      ∃ i, i < state.length ∧ removeRipple state ripple = state.eraseIdx i) ∧
    (cancelRipples state false = [] ∧
      (cancelRipples state true).length = state.length) := by
  refine ⟨?_, ?_, ?_, rfl, by simp [cancelRipples]⟩
  · by_cases h : state.findIdx (fun r => r == ripple) < state.length ∧
        ripple.exiting = false
    · refine Or.inr ⟨state.findIdx (fun r => r == ripple),
        { ripple with
          exiting := !ripple.holding || decide (now - ripple.startTime > 300)
          entered := true }, h.1, ?_, ?_⟩
      · simp only [enteredRipple, if_pos h]
      · intro j hj
        simp only [enteredRipple, if_pos h]
        exact List.getElem?_set_ne (fun e => hj e.symm)
    · exact Or.inl (by simp only [enteredRipple, if_neg h])
  · by_cases h : state.findIdx (fun r => r.holding && !r.exiting) <
        state.length
    · refine Or.inr ⟨state.findIdx (fun r => r.holding && !r.exiting),
        { state.get ⟨state.findIdx (fun r => r.holding && !r.exiting), h⟩ with
          exiting := (state.get
              ⟨state.findIdx (fun r => r.holding && !r.exiting), h⟩).entered
            || decide (now - (state.get
              ⟨state.findIdx (fun r => r.holding && !r.exiting),
                h⟩).startTime > 300)
          holding := false }, h, ?_, ?_⟩
      · simp only [releaseRipple, dif_pos h]
      · intro j hj
        simp only [releaseRipple, dif_pos h]
        exact List.getElem?_set_ne (fun e => hj e.symm)
    · exact Or.inl (by simp only [releaseRipple, dif_neg h])
  · by_cases h : state.findIdx (fun r => r.startTime == ripple.startTime) <
        state.length
    · exact Or.inr ⟨state.findIdx (fun r => r.startTime == ripple.startTime),
        h, by simp only [removeRipple, if_pos h]⟩
    · exact Or.inl (by simp only [removeRipple, if_neg h])

/-- Witness for `transitions_frame` at a concrete one-ripple set. -/
theorem transitions_frame_witness :
    cancelRipples [sampleRipple] false = [] :=
  (transitions_frame [sampleRipple] sampleRipple 0).2.2.2.1

theorem findIdx_eq_prefix_length {α : Type} (p : α → Bool) (pre : List α)
    (r : α) (post : List α) (hpre : ∀ a ∈ pre, p a = false)
    (hr : p r = true) :
    (pre ++ r :: post).findIdx p = pre.length := by
  rw [List.findIdx_append, List.findIdx_eq_length_of_false hpre]
  simp [List.findIdx_cons, hr]

theorem set_prefix_length {α : Type} (pre : List α) (r x : α)
    (post : List α) :
    (pre ++ r :: post).set pre.length x = pre ++ x :: post := by
  rw [List.set_append_right _ _ (Nat.le_refl _), Nat.sub_self,
    List.set_cons_zero]

theorem eraseIdx_prefix_length {α : Type} (pre : List α) (r : α)
    (post : List α) :
    (pre ++ r :: post).eraseIdx pre.length = pre ++ post := by
  rw [List.eraseIdx_append_of_length_le (Nat.le_refl _), Nat.sub_self]
  rfl

theorem get_prefix_length {α : Type} (pre : List α) (r : α) (post : List α)
    (h : pre.length < (pre ++ r :: post).length) :
    (pre ++ r :: post).get ⟨pre.length, h⟩ = r := by
  simp [List.get_eq_getElem, List.getElem_append_right]

theorem holding_pred_false_iff (r : RippleState) :
    (r.holding && !r.exiting) = false ↔
      ¬(r.holding = true ∧ r.exiting = false) := by
  cases hh : r.holding <;> cases hx : r.exiting <;> simp

/-- C1: RELEASE replaces the first ripple (in set order) having
`holding = true` and `exiting = false` by a copy with `holding = false`
and `exiting = entered || now − startTime > 300`; when no ripple has
`holding = true, exiting = false` it returns the set unchanged. -/
theorem releaseRipple_spec (state : RipplesState) (now : Int) :
    ((∀ r ∈ state, ¬(r.holding = true ∧ r.exiting = false)) →
      releaseRipple state now = state) ∧
    (∀ pre rip post, state = pre ++ rip :: post →
      (∀ r ∈ pre, ¬(r.holding = true ∧ r.exiting = false)) →
      rip.holding = true → rip.exiting = false →
      releaseRipple state now = pre ++
        { rip with
          holding := false
          exiting := rip.entered ||
            decide (now - rip.startTime > 300) } :: post) := by
  constructor
  · intro hno
    have hall : ∀ r ∈ state, (r.holding && !r.exiting) = false :=
      fun r hr => (holding_pred_false_iff r).mpr (hno r hr)
    have hlen := List.findIdx_eq_length_of_false hall
    simp only [releaseRipple]
    rw [dif_neg (by omega)]
  · intro pre rip post hstate hpre hh hx
    subst hstate
    have hfi : (pre ++ rip :: post).findIdx
        (fun r => r.holding && !r.exiting) = pre.length :=
      findIdx_eq_prefix_length _ pre rip post
        (fun a ha => (holding_pred_false_iff a).mpr (hpre a ha))
        (by simp [hh, hx])
    have hlt : pre.length < (pre ++ rip :: post).length := by simp
    simp only [releaseRipple, hfi]
    rw [dif_pos hlt, get_prefix_length pre rip post hlt,
      set_prefix_length]

/-- Witness for `releaseRipple_spec`: a lone held, unentered ripple
released 400 ms after creation comes back released and exiting. -/
theorem releaseRipple_spec_witness :
    releaseRipple [sampleRipple] 400 =
      [{ sampleRipple with holding := false, exiting := true }] := by
  have h := (releaseRipple_spec [sampleRipple] 400).2 [] sampleRipple []
    rfl (by simp) rfl rfl
  rw [h]
  decide

/-- C2: ENTERED is the identity when the referenced ripple is absent from
the set (modelled reference equality) or already exiting; otherwise it
replaces that ripple in place with `entered = true` and
`exiting = !holding || now − startTime > 300`. -/
theorem enteredRipple_spec (state : RipplesState) (ripple : RippleState)
    (now : Int) :
    ((∀ r ∈ state, r ≠ ripple) → enteredRipple state ripple now = state) ∧
    (ripple.exiting = true → enteredRipple state ripple now = state) ∧
    (∀ pre post, state = pre ++ ripple :: post → ripple ∉ pre →
      ripple.exiting = false →
      enteredRipple state ripple now = pre ++
        { ripple with
          entered := true
          exiting := !ripple.holding ||
            decide (now - ripple.startTime > 300) } :: post) := by
  refine ⟨?_, ?_, ?_⟩
  · intro hno
    have hall : ∀ r ∈ state, (r == ripple) = false := fun r hr => by
      simpa using hno r hr
    have hlen := List.findIdx_eq_length_of_false hall
    simp only [enteredRipple]
    rw [if_neg (by omega)]
  · intro hx
    simp only [enteredRipple]
    rw [if_neg (by simp [hx])]
  · intro pre post hstate hpre hx
    subst hstate
    have hfi : (pre ++ ripple :: post).findIdx (fun r => r == ripple) =
        pre.length :=
      findIdx_eq_prefix_length _ pre ripple post
        (fun a ha => by
          have hne : a ≠ ripple := fun e => hpre (e ▸ ha)
          simpa using hne)
        (by simp)
    have hlt : pre.length < (pre ++ ripple :: post).length := by simp
    simp only [enteredRipple, hfi]
    rw [if_pos ⟨hlt, hx⟩, set_prefix_length]

/-- Witness for `enteredRipple_spec`: ENTERED 100 ms after creation of a
lone still-held ripple marks it entered but not exiting. -/
theorem enteredRipple_spec_witness :
    enteredRipple [sampleRipple] sampleRipple 100 =
      [{ sampleRipple with entered := true, exiting := false }] := by
  have h := (enteredRipple_spec [sampleRipple] sampleRipple 100).2.2 [] []
    rfl (by simp) rfl
  rw [h]
  decide

/-- C5: REMOVE deletes the first entry whose `startTime` equals the
argument's, keeping all other entries in order; it is the identity when no
entry matches, and on the empty set (e.g. after CANCEL with
`ease = false`) it is a no-op. -/
theorem removeRipple_spec (state : RipplesState) (ripple : RippleState) :
    ((∀ r ∈ state, r.startTime ≠ ripple.startTime) →
      removeRipple state ripple = state) ∧
    (∀ pre r post, state = pre ++ r :: post →
      (∀ q ∈ pre, q.startTime ≠ ripple.startTime) →
      r.startTime = ripple.startTime →
      removeRipple state ripple = pre ++ post) ∧
    removeRipple [] ripple = [] := by
  refine ⟨?_, ?_, rfl⟩
  · intro hno
    have hall : ∀ r ∈ state, (r.startTime == ripple.startTime) = false :=
      fun r hr => by simpa using hno r hr
    have hlen := List.findIdx_eq_length_of_false hall
    simp only [removeRipple]
    rw [if_neg (by omega)]
  · intro pre r post hstate hpre hr
    subst hstate
    have hfi : (pre ++ r :: post).findIdx
        (fun q => q.startTime == ripple.startTime) = pre.length :=
      findIdx_eq_prefix_length _ pre r post
        (fun a ha => by simpa using hpre a ha) (by simp [hr])
    have hlt : pre.length < (pre ++ r :: post).length := by simp
    simp only [removeRipple, hfi]
    rw [if_pos hlt, eraseIdx_prefix_length]

/-- Witness for `removeRipple_spec`: removing the only ripple empties the
set. -/
theorem removeRipple_spec_witness :
    removeRipple [sampleRipple] sampleRipple = [] := by
  have h := (removeRipple_spec [sampleRipple] sampleRipple).2.1 []
    sampleRipple [] rfl (by simp) rfl
  simpa using h

/-- C3: CREATE returns the set unchanged whenever the classifier rejects
the event, the event bubbled, or the event is non-touch while a touch
ripple is already in the set; in exactly the remaining cases it appends
one new ripple at the end, leaving the existing entries unchanged. -/
theorem createRipple_spec (state : RipplesState) (event : RippleEvent)
    (d : Bool) (now : Int) :
    ((isRippleable event d = false ∨ isBubbled event = true ∨
        (¬getType event = .touch ∧ ∃ r ∈ state, r.type = .touch)) →
      createRipple state event d now = state) ∧
    (isRippleable event d = true → isBubbled event = false →
      (getType event = .touch ∨ ∀ r ∈ state, ¬r.type = .touch) →
      createRipple state event d now =
        state ++ [createRippleState event now]) := by
  constructor
  · rintro (h | h | ⟨hnt, r, hr, hrt⟩)
    · simp [createRipple, h]
    · simp [createRipple, h]
    · by_cases hA : (!isRippleable event d || isBubbled event) = true
      · simp [createRipple, hA]
      · have hfind : ((state.find? (fun r => r.type == Modality.touch)).isSome
            : Bool) = true := by
          rw [List.find?_isSome]
          exact ⟨r, hr, by simp [hrt]⟩
        have hbne : (getType event != Modality.touch) = true := by
          simpa using hnt
        simp [createRipple, hA, hbne, hfind]
  · intro hri hnb hcases
    have hA : (!isRippleable event d || isBubbled event) = false := by
      simp [hri, hnb]
    rcases hcases with ht | hall
    · simp [createRipple, hA, ht]
    · have hfind : (state.find? (fun r => r.type == Modality.touch)) =
          none := by
        rw [List.find?_eq_none]
        intro r hr
        simpa using hall r hr
      simp [createRipple, hA, hfind]

/-- Witness for `createRipple_spec`: a primary-button unbubbled mouse
event on the empty set appends one fresh ripple. -/
theorem createRipple_spec_witness :
    createRipple [] sampleMouseEvent false 100 =
      [createRippleState sampleMouseEvent 100] := by
  have h := (createRipple_spec [] sampleMouseEvent false 100).2 (by decide)
    (by decide) (Or.inr (by simp))
  simpa using h

/-- C6 counterexample: two primary-button mouse CREATE events delivered in
the same tick (both with `now = 100`), applied from the empty set, leave
two entries with the identical `startTime` 100 — the touch/mouse guard
only blocks non-touch events while a touch ripple is present, not repeated
same-modality CREATE calls in one tick. -/
theorem same_tick_duplicate_startTime_cex :
    (reducer (reducer [] (.create sampleMouseEvent false) 100)
        (.create sampleMouseEvent false) 100).map RippleState.startTime =
      [100, 100] := by decide

/-- C6 amended: once a CREATE has appended a touch ripple, a subsequent
non-touch CREATE (at any tick) is a no-op, so a touch CREATE followed by a
synthesized mouse CREATE in the same tick never yields two entries with
identical `startTime`; repeated non-touch CREATE calls in one tick are not
excluded. -/
theorem createRipple_touch_exclusion (state : RipplesState)
    (e1 e2 : RippleEvent) (d1 d2 : Bool) (t t' : Int)
    (h1 : getType e1 = .touch) (h2 : ¬getType e2 = .touch)
    (hc : createRipple state e1 d1 t ≠ state) :
    createRipple (createRipple state e1 d1 t) e2 d2 t' =
      createRipple state e1 d1 t := by
  have hS : createRipple state e1 d1 t =
      state ++ [createRippleState e1 t] := by
    by_cases hA : (!isRippleable e1 d1 || isBubbled e1) = true
    · exact absurd (by simp [createRipple, hA]) hc
    · have hA' : (!isRippleable e1 d1 || isBubbled e1) = false := by
        simpa using hA
      simp [createRipple, hA', h1]
  rw [hS]
  by_cases hA2 : (!isRippleable e2 d2 || isBubbled e2) = true
  · simp [createRipple, hA2]
  · have hA2' : (!isRippleable e2 d2 || isBubbled e2) = false := by
      simpa using hA2
    have hfind : (((state ++ [createRippleState e1 t]).find?
        (fun r => r.type == Modality.touch)).isSome : Bool) = true := by
      rw [List.find?_isSome]
      exact ⟨createRippleState e1 t, by simp, by simp [createRippleState, h1]⟩
    have hbne : (getType e2 != Modality.touch) = true := by simpa using h2
    simp only [createRipple, hA2', Bool.false_eq_true, if_false, hbne,
      hfind, Bool.and_self, if_true]

/-- Witness for `createRipple_touch_exclusion`: a touch CREATE then a
mouse CREATE in the same tick leave only the touch ripple. -/
theorem createRipple_touch_exclusion_witness :
    createRipple (createRipple [] sampleTouchEvent false 100)
        sampleMouseEvent false 100 =
      createRipple [] sampleTouchEvent false 100 :=
  createRipple_touch_exclusion [] sampleTouchEvent sampleMouseEvent
    false false 100 100 (by decide) (by decide) (by decide)

end Ripples
